import Mathlib

/-!
Shallow embedding of the ETLPassing_the_Way news ETL pipeline.

The repository has four site parsers (`KommersantParser`, `RBCParser`,
`IXBTParser`, `RIAParser` in `multi_parser.py`), each of which fetches a
listing page, locates repeating item elements with BeautifulSoup, and
builds pydantic `Article` records inside a per-item `try/except` loop.
`main` runs all four parsers with `asyncio.gather`; `etl_pipe.py` flattens
the results, serializes each record with the marshmallow `ArticleSchema`,
and writes a JSON array.

The embedding abstracts the external libraries at their interfaces:
a fetched document is the list of item elements BeautifulSoup's
`find_all` would return, each item giving the text/href of the
sub-elements the parser's `find` calls look up (`none` when the
sub-element is absent); pydantic/marshmallow URL validation is collapsed
into one absolute-URL predicate, as the data-model invariant.
-/

set_option autoImplicit false

namespace ETL

/-- The pydantic model `Article` (models/article.py lines 19-22):
`source : str`, `title : str`, `timestamp : Optional[str] = None`,
`url : HttpUrl`.  The URL invariant is enforced by the validated
constructor `mkArticle` below, mirroring pydantic's validation on
construction. -/
structure Article where
  source : String
  title : String
  timestamp : Option String
  url : String
deriving DecidableEq, Repr

/-- Python `str.strip()`: the string with leading and trailing whitespace
characters removed. -/
def pyStrip (s : String) : String :=
  ⟨((s.data.dropWhile Char.isWhitespace).reverse.dropWhile Char.isWhitespace).reverse⟩

/-- Host part of an `http(s)` URL: what stands between the scheme
separator and the first `/`, `?` or `#`. -/
def urlHost (u : String) : String :=
  let rest :=
    if "https://".data.isPrefixOf u.data then u.data.drop 8
    else if "http://".data.isPrefixOf u.data then u.data.drop 7
    else []
  ⟨rest.takeWhile (fun c => c != '/' && c != '?' && c != '#')⟩

/-- Modelled from the spec: the syntactic absolute-URL validation that the
spec collapses the pydantic `HttpUrl` and marshmallow `fields.Url`
libraries into ("absolute, well-formed URL"; "schema/validation libraries
— collapsed into the data model's invariants").  A valid URL carries an
`http`/`https` scheme and a non-empty dotted host; a relative path has no
scheme and is rejected. -/
def isHttpUrl (u : String) : Bool :=
  ("http://".data.isPrefixOf u.data || "https://".data.isPrefixOf u.data)
    && !(urlHost u).data.isEmpty
    && (urlHost u).data.contains '.'

/-- Pydantic-validated construction `Article(source=…, title=…,
timestamp=…, url=…)`: `title : str` rejects `None`, `url : HttpUrl`
rejects `None` and syntactically invalid (in particular relative) URLs;
`timestamp : Optional[str]` accepts anything.  An `error` is the
`ValidationError` the constructor raises, caught by the parsers'
per-item `except`. -/
def mkArticle (source : String) (title timestamp url : Option String) :
    Except String Article :=
  match title, url with
  | none, _ => Except.error "title: none is not an allowed value"
  | _, none => Except.error "url: none is not an allowed value"
  | some t, some u =>
      if isHttpUrl u then Except.ok ⟨source, t, timestamp, u⟩
      else Except.error "url: invalid or relative URL"

/-- One repeating item element of a fetched listing page, as seen by the
Kommersant, RBC and IXBT parsers: the text of the located title element,
the text of the located timestamp element, and the href of the located
link element — `none` where the corresponding `find` returns `None`. -/
structure Item where
  titleText : Option String
  timestampText : Option String
  href : Option String
deriving DecidableEq, Repr

/-- One repeating item element as seen by the RIA parser: its title
element is an `<a href=…>` supplying both the title text and the href
(`find(…, attrs={"href": True})`, so the element is found only with an
href), plus the text of the timestamp element. -/
structure RIAItem where
  titleLink : Option (String × String)
  timestampText : Option String
deriving DecidableEq, Repr

/-- Log events the parsers emit: `logger.error` for a caught per-item
exception, `logger.info` with the final record count. -/
inductive LogEvent where
  | itemError (msg : String)
  | info (count : Nat)
deriving DecidableEq, Repr

/-- Outcome of the body of one iteration of a parser's extraction loop:
an `Article` appended to `articles_data`, a silent skip (the
`if title and timestamp and article_url` guard failed), or a caught
exception logged by the `except` branch. -/
inductive ItemResult where
  | emitted (a : Article)
  | skipped
  | errored (msg : String)
deriving DecidableEq, Repr

/-- Python truthiness of an `Optional[str]`: `None` and `""` are falsy. -/
def truthy : Option String → Bool
  | none => false
  | some s => s != ""

/-- Body of one iteration of `KommersantParser.parse` (lines 66-85):
strip the title and timestamp texts when present, prefix the href with
the site origin, and construct the `Article` — there is no truthiness
guard, so construction is attempted for every item and any
`ValidationError` is caught and logged. -/
def kommersantItem (it : Item) : ItemResult :=
  let title := it.titleText.map pyStrip
  let timestamp := it.timestampText.map pyStrip
  let articleUrl := it.href.map (fun h => "https://www.kommersant.ru" ++ h)
  match mkArticle "Kommersant" title timestamp articleUrl with
  | Except.ok a => ItemResult.emitted a
  | Except.error e => ItemResult.errored e

/-- Body of one iteration of `RBCParser.parse` (lines 111-132): the raw
href is used as the URL; the `if title and timestamp and article_url`
guard silently skips the item unless all three are truthy, and a
`ValidationError` from construction is caught and logged. -/
def rbcItem (it : Item) : ItemResult :=
  let title := it.titleText.map pyStrip
  let timestamp := it.timestampText.map pyStrip
  let articleUrl := it.href
  if truthy title && truthy timestamp && truthy articleUrl then
    match mkArticle "RBC" title timestamp articleUrl with
    | Except.ok a => ItemResult.emitted a
    | Except.error e => ItemResult.errored e
  else ItemResult.skipped

/-- Body of one iteration of `IXBTParser.parse` (lines 158-175): the
comments link's href is prefixed with the site origin; the same
truthiness guard as RBC applies. -/
def ixbtItem (it : Item) : ItemResult :=
  let title := it.titleText.map pyStrip
  let timestamp := it.timestampText.map pyStrip
  let articleUrl := it.href.map (fun h => "https://www.ixbt.com/" ++ h)
  if truthy title && truthy timestamp && truthy articleUrl then
    match mkArticle "IXBT" title timestamp articleUrl with
    | Except.ok a => ItemResult.emitted a
    | Except.error e => ItemResult.errored e
  else ItemResult.skipped

/-- Body of one iteration of `RIAParser.parse` (lines 201-218): title
text and href come from the same `<a>` element; the raw href is the URL;
the same truthiness guard applies. -/
def riaItem (it : RIAItem) : ItemResult :=
  let articleUrl := it.titleLink.map Prod.snd
  let title := (it.titleLink.map Prod.fst).map pyStrip
  let timestamp := it.timestampText.map pyStrip
  if truthy title && truthy timestamp && truthy articleUrl then
    match mkArticle "RIA" title timestamp articleUrl with
    | Except.ok a => ItemResult.emitted a
    | Except.error e => ItemResult.errored e
  else ItemResult.skipped

/-- The shared shape of every parser's extraction loop
(`for article in articles: try: … append … except: logger.error`):
emitted records are appended in document order, skipped items leave no
trace, caught exceptions append an error log event in document order. -/
def itemsLoop {α : Type} (f : α → ItemResult) : List α → List Article × List LogEvent
  | [] => ([], [])
  | it :: rest =>
    match f it, itemsLoop f rest with
    | ItemResult.emitted a, (recs, logs) => (a :: recs, logs)
    | ItemResult.skipped, r => r
    | ItemResult.errored e, (recs, logs) => (recs, LogEvent.itemError e :: logs)

/-- A full `parse` call on a fetched document: run the extraction loop,
then `logger.info` the number of records obtained. -/
def parseLoop {α : Type} (f : α → ItemResult) (doc : List α) :
    List Article × List LogEvent :=
  let r := itemsLoop f doc
  (r.1, r.2 ++ [LogEvent.info r.1.length])

/-- `KommersantParser.parse` applied to the items `find_all` located. -/
def kommersantParse (doc : List Item) : List Article × List LogEvent :=
  parseLoop kommersantItem doc

/-- `RBCParser.parse` applied to the items `find_all` located. -/
def rbcParse (doc : List Item) : List Article × List LogEvent :=
  parseLoop rbcItem doc

/-- `IXBTParser.parse` applied to the items `find_all` located. -/
def ixbtParse (doc : List Item) : List Article × List LogEvent :=
  parseLoop ixbtItem doc

/-- `RIAParser.parse` applied to the items `find_all` located. -/
def riaParse (doc : List RIAItem) : List Article × List LogEvent :=
  parseLoop riaItem doc

/-- An HTTP response as the transport delivers it: a status code and a
body text. -/
structure HttpResponse where
  status : Nat
  body : String
deriving DecidableEq, Repr

/-- What one `session.get` call can yield: a response (of any status), a
transport/network exception, or a timeout exception. -/
inductive FetchResult where
  | ok (r : HttpResponse)
  | netError (msg : String)
  | timeout
deriving DecidableEq, Repr

/-- `NewsParserInterface.fetch` (multi_parser.py lines 31-33) applied to
what its single `session.get` yielded: `response.text()` returns the body
— the status code is never inspected — while a transport exception or
timeout propagates out of `fetch` as an error. -/
def fetchResponse : FetchResult → Except String String
  | FetchResult.ok r => Except.ok r.body
  | FetchResult.netError e => Except.error e
  | FetchResult.timeout => Except.error "timeout"

/-- `fetch` against a network modelled as the stream of responses that
successive requests would receive: the one `session.get` consumes exactly
the first response, and the rest of the stream is returned untouched —
no second request is ever made, whatever the first response was. -/
def fetchSession (net : List FetchResult) : Except String String × List FetchResult :=
  match net with
  | [] => (Except.error "no response", [])
  | r :: rest => (fetchResponse r, rest)

/-- The network's behaviour for one run of `main`: what each of the four
parsers' fetch+parse unit of work yields — `error` when its fetch raised
(network failure or timeout), `ok doc` the items located in the fetched
page otherwise. -/
structure NetworkInput where
  kommersantDoc : Except String (List Item)
  rbcDoc : Except String (List Item)
  ixbtDoc : Except String (List Item)
  riaDoc : Except String (List RIAItem)

/-- One parser's `run()`: fetch, then parse, returning the record list;
an exception from `fetch` propagates (nothing in `parse` or `run`
catches it). -/
def kommersantRun (d : Except String (List Item)) : Except String (List Article) :=
  d.map (fun doc => (kommersantParse doc).1)

/-- `RBCParser`'s `run()`, as `kommersantRun`. -/
def rbcRun (d : Except String (List Item)) : Except String (List Article) :=
  d.map (fun doc => (rbcParse doc).1)

/-- `IXBTParser`'s `run()`, as `kommersantRun`. -/
def ixbtRun (d : Except String (List Item)) : Except String (List Article) :=
  d.map (fun doc => (ixbtParse doc).1)

/-- `RIAParser`'s `run()`, as `kommersantRun`. -/
def riaRun (d : Except String (List RIAItem)) : Except String (List Article) :=
  d.map (fun doc => (riaParse doc).1)

/-- The failing tasks of a gather call, each with its completion time. -/
def failTimes {ε α : Type} (tasks : List (Nat × Except ε α)) : List (Nat × ε) :=
  tasks.filterMap (fun te =>
    match te.2 with
    | Except.error e => some (te.1, e)
    | Except.ok _ => none)

/-- Earliest-completing element of a timed list (first in list order on a
tie). -/
def earliestFail {ε : Type} : List (Nat × ε) → Option (Nat × ε)
  | [] => none
  | x :: xs =>
    match earliestFail xs with
    | none => some x
    | some y => if y.1 < x.1 then some y else some x

/-- `asyncio.gather(*tasks)` without `return_exceptions` over tasks
tagged with completion times: when every task succeeds, the results come
back positionally, in task-argument order, whatever the completion
times; when some task fails, awaiting the gather raises the exception of
the earliest-completing failing task and every successful task's result
is discarded. -/
def gatherTimed {ε α : Type} (tasks : List (Nat × Except ε α)) : Except ε (List α) :=
  match earliestFail (failTimes tasks) with
  | some te => Except.error te.2
  | none =>
      Except.ok (tasks.filterMap (fun te =>
        match te.2 with
        | Except.ok a => some a
        | Except.error _ => none))

/-- `main` in multi_parser.py (lines 231-248): gather the four parsers'
`run()` tasks, registered in the order Kommersant, RBC, IXBT, RIA; the
`t…` arguments are the real-world completion times of the four units of
work. -/
def mainGather (t1 t2 t3 t4 : Nat) (net : NetworkInput) :
    Except String (List (List Article)) :=
  gatherTimed
    [(t1, kommersantRun net.kommersantDoc),
     (t2, rbcRun net.rbcDoc),
     (t3, ixbtRun net.ixbtDoc),
     (t4, riaRun net.riaDoc)]

/-- A JSON value, for the serialized output. -/
inductive Json where
  | null
  | str (s : String)
  | arr (elems : List Json)
  | obj (fields : List (String × Json))

/-- `ArticleSchema().dump(article)` (schemas/article.py lines 19-22): a
dict with exactly the declared fields `source`, `title`, `timestamp`,
`url`; a `None` timestamp is dumped as an explicit null value under the
`timestamp` key. -/
def articleDump (a : Article) : List (String × Json) :=
  [("source", Json.str a.source),
   ("title", Json.str a.title),
   ("timestamp",
     match a.timestamp with
     | none => Json.null
     | some t => Json.str t),
   ("url", Json.str a.url)]

/-- The flattening loop of `etl_pipe.main` (lines 23-26): for each
per-parser result, for each article in it, append
`schema.dump(article)` to `articles_list`. -/
def etlArticlesList (results : List (List Article)) : List Json :=
  results.foldl
    (fun acc result => acc ++ result.map (fun a => Json.obj (articleDump a)))
    []

/-- `save_to_json(data)` (etl_pipe.py lines 8-16): `json.dump` writes the
list of dicts as a JSON array. -/
def saveToJson (data : List Json) : Json :=
  Json.arr data

/-- Lookup of one key in a dumped dict. -/
def getField (d : List (String × Json)) (k : String) : Option Json :=
  (d.find? (fun kv => kv.1 == k)).map Prod.snd

/-- Marshmallow `fields.Str()` deserialization: the value must be a
string. -/
def loadStr : Json → Except String String
  | Json.str s => Except.ok s
  | _ => Except.error "not a valid string"

/-- Marshmallow `fields.Str(allow_none=True)` deserialization: null is
accepted and becomes `None`. -/
def loadOptStr : Json → Except String (Option String)
  | Json.null => Except.ok none
  | Json.str s => Except.ok (some s)
  | _ => Except.error "not a valid string"

/-- Marshmallow `fields.Url()` deserialization: a string that passes the
URL validation. -/
def loadUrl : Json → Except String String
  | Json.str s => if isHttpUrl s then Except.ok s else Except.error "not a valid URL"
  | _ => Except.error "not a valid URL"

/-- Deserialization of one declared field: look the key up in the dict
and apply the field's deserializer; a missing key is an error (turning up
later as a missing required argument of `Article(**data)`). -/
def loadField {β : Type} (d : List (String × Json)) (k : String)
    (f : Json → Except String β) : Except String β :=
  match getField d k with
  | some j => f j
  | none => Except.error "missing field"

/-- `ArticleSchema().load(data)` followed by the `post_load` hook
`make_article` (schemas/article.py lines 24-26): deserialize the four
declared fields (unknown keys raise, marshmallow's default), then build
`Article(**data)` through pydantic's validating constructor. -/
def articleLoad (d : List (String × Json)) : Except String Article :=
  if d.any (fun kv =>
      kv.1 != "source" && kv.1 != "title" && kv.1 != "timestamp" && kv.1 != "url") then
    Except.error "unknown field"
  else
    match loadField d "source" loadStr, loadField d "title" loadStr,
        loadField d "timestamp" loadOptStr, loadField d "url" loadUrl with
    | Except.ok src, Except.ok title, Except.ok timestamp, Except.ok url =>
        mkArticle src (some title) timestamp (some url)
    | Except.error e, _, _, _ => Except.error e
    | _, Except.error e, _, _ => Except.error e
    | _, _, Except.error e, _ => Except.error e
    | _, _, _, Except.error e => Except.error e

/-- The `Article` one loop iteration appends, when any. -/
def emittedPart : ItemResult → Option Article
  | ItemResult.emitted a => some a
  | ItemResult.skipped => none
  | ItemResult.errored _ => none

/-- The log event one loop iteration emits, when any. -/
def erroredPart : ItemResult → Option LogEvent
  | ItemResult.emitted _ => none
  | ItemResult.skipped => none
  | ItemResult.errored e => some (LogEvent.itemError e)

theorem itemsLoop_eq_filterMap {α : Type} (f : α → ItemResult) (doc : List α) :
    itemsLoop f doc
      = (doc.filterMap (fun it => emittedPart (f it)),
         doc.filterMap (fun it => erroredPart (f it))) := by
  induction doc with
  | nil => rfl
  | cons it rest ih =>
      cases h : f it <;>
        simp [itemsLoop, List.filterMap_cons, h, ih, emittedPart, erroredPart]

theorem itemsLoop_append {α : Type} (f : α → ItemResult) (xs ys : List α) :
    itemsLoop f (xs ++ ys)
      = ((itemsLoop f xs).1 ++ (itemsLoop f ys).1,
         (itemsLoop f xs).2 ++ (itemsLoop f ys).2) := by
  simp [itemsLoop_eq_filterMap, List.filterMap_append]

theorem mem_itemsLoop_records {α : Type} {f : α → ItemResult} {doc : List α}
    {a : Article} (h : a ∈ (itemsLoop f doc).1) :
    ∃ it ∈ doc, f it = ItemResult.emitted a := by
  rw [itemsLoop_eq_filterMap] at h
  simp only [List.mem_filterMap] at h
  obtain ⟨it, hit, he⟩ := h
  refine ⟨it, hit, ?_⟩
  cases hf : f it with
  | emitted b => simp [emittedPart, hf] at he; simp [he]
  | skipped => simp [emittedPart, hf] at he
  | errored e => simp [emittedPart, hf] at he

theorem mkArticle_ok {s : String} {t ts u : Option String} {a : Article}
    (h : mkArticle s t ts u = Except.ok a) :
    t = some a.title ∧ ts = a.timestamp ∧ u = some a.url
      ∧ a.source = s ∧ isHttpUrl a.url = true := by
  cases t with
  | none => simp [mkArticle] at h
  | some t0 =>

    cases u with
    | none => simp [mkArticle] at h
    | some u0 =>

      by_cases hu : isHttpUrl u0
      · simp [mkArticle, hu] at h
        subst h
        simp [hu]
      · simp [mkArticle, hu] at h

theorem kommersantItem_emitted {it : Item} {a : Article}
    (h : kommersantItem it = ItemResult.emitted a) :
    a.source = "Kommersant" ∧ isHttpUrl a.url = true := by
  unfold kommersantItem at h
  dsimp only at h
  cases hm : mkArticle "Kommersant" (it.titleText.map pyStrip)
      (it.timestampText.map pyStrip)
      (it.href.map (fun s => "https://www.kommersant.ru" ++ s)) with
  | ok b =>
      rw [hm] at h
      cases h
      have := mkArticle_ok hm
      exact ⟨this.2.2.2.1, this.2.2.2.2⟩
  | error e => rw [hm] at h; cases h

theorem guardItem_emitted {src : String} {title timestamp articleUrl : Option String}
    {a : Article}
    (h : (if truthy title && truthy timestamp && truthy articleUrl then
            match mkArticle src title timestamp articleUrl with
            | Except.ok b => ItemResult.emitted b
            | Except.error e => ItemResult.errored e
          else ItemResult.skipped) = ItemResult.emitted a) :
    a.source = src ∧ isHttpUrl a.url = true ∧ a.title ≠ ""
      ∧ truthy timestamp = true := by
  by_cases hg : truthy title && truthy timestamp && truthy articleUrl
  · rw [if_pos hg] at h
    cases hm : mkArticle src title timestamp articleUrl with
    | ok b =>
        rw [hm] at h
        cases h
        have hp := mkArticle_ok hm
        have ht : truthy title = true := by
          simp only [Bool.and_eq_true] at hg
          exact hg.1.1
        have hts : truthy timestamp = true := by
          simp only [Bool.and_eq_true] at hg
          exact hg.1.2
        refine ⟨hp.2.2.2.1, hp.2.2.2.2, ?_, hts⟩
        rw [hp.1] at ht
        simpa [truthy] using ht
    | error e => rw [hm] at h; cases h
  · rw [if_neg hg] at h
    cases h

theorem rbcItem_emitted {it : Item} {a : Article}
    (h : rbcItem it = ItemResult.emitted a) :
    a.source = "RBC" ∧ isHttpUrl a.url = true ∧ a.title ≠ "" := by
  unfold rbcItem at h
  dsimp only at h
  exact (guardItem_emitted h).imp id (fun p => ⟨p.1, p.2.1⟩)

theorem ixbtItem_emitted {it : Item} {a : Article}
    (h : ixbtItem it = ItemResult.emitted a) :
    a.source = "IXBT" ∧ isHttpUrl a.url = true ∧ a.title ≠ "" := by
  unfold ixbtItem at h
  dsimp only at h
  exact (guardItem_emitted h).imp id (fun p => ⟨p.1, p.2.1⟩)

theorem riaItem_emitted {it : RIAItem} {a : Article}
    (h : riaItem it = ItemResult.emitted a) :
    a.source = "RIA" ∧ isHttpUrl a.url = true ∧ a.title ≠ "" := by
  unfold riaItem at h
  dsimp only at h
  exact (guardItem_emitted h).imp id (fun p => ⟨p.1, p.2.1⟩)

/-- C1: the claim says a single adapter's fetch/parse fault leaves the other
adapters' results intact and the run still produces output.  The code violates
this: `main` awaits `asyncio.gather` without `return_exceptions`, so when the
RBC fetch raises a network error (completing at time 1) while Kommersant and
IXBT succeed with one record each and RIA succeeds with zero, the whole run
raises that error and every successful adapter's records are discarded. -/
theorem c1_single_failure_aborts_run :
    kommersantRun (Except.ok [⟨some "Title K", some "10:00", some "/doc/1"⟩])
      = Except.ok [⟨"Kommersant", "Title K", some "10:00",
                    "https://www.kommersant.ru/doc/1"⟩]
    ∧ ixbtRun (Except.ok [⟨some "Title I", some "11:00", some "news/2.html"⟩])
      = Except.ok [⟨"IXBT", "Title I", some "11:00",
                    "https://www.ixbt.com/news/2.html"⟩]
    ∧ mainGather 3 1 2 4
        ⟨Except.ok [⟨some "Title K", some "10:00", some "/doc/1"⟩],
         Except.error "aiohttp.ClientError",
         Except.ok [⟨some "Title I", some "11:00", some "news/2.html"⟩],
         Except.ok []⟩
      = Except.error "aiohttp.ClientError" :=
  ⟨by rfl, by rfl, rfl⟩

/-- C6 counterexample: the claim says `fetch` fails on any non-2xx response
status, but `fetch` never inspects the status: on a 404 response it returns
the body as the document. -/
theorem c6_non_2xx_returns_body :
    fetchResponse (FetchResult.ok ⟨404, "<html>Not Found</html>"⟩)
      = Except.ok "<html>Not Found</html>"
    ∧ ¬ (200 ≤ 404 ∧ 404 ≤ 299) :=
  ⟨rfl, by decide⟩

/-- C6 amended: `fetch` performs exactly one request with no internal retry
(it consumes exactly the first network response, never a second, whatever
that response was) and fails on network failure or timeout; the response
status is not inspected, so the body of any response — including a non-2xx
one — is returned as the document. -/
theorem c6_amended_single_request_no_status_check (r : FetchResult)
    (rest : List FetchResult) (resp : HttpResponse) (e : String) :
    fetchSession (r :: rest) = (fetchResponse r, rest)
    ∧ fetchResponse (FetchResult.ok resp) = Except.ok resp.body
    ∧ fetchResponse (FetchResult.netError e) = Except.error e
    ∧ fetchResponse FetchResult.timeout = Except.error "timeout" :=
  ⟨rfl, rfl, rfl, rfl⟩

/-- C7: every adapter's extraction applied to a document with zero matching
items returns the empty record sequence with a zero-count info log — a
normal return, not a failure — and the adapter's whole unit of work is the
success outcome with zero records. -/
theorem c7_zero_items_empty_success :
    kommersantParse [] = ([], [LogEvent.info 0])
    ∧ rbcParse [] = ([], [LogEvent.info 0])
    ∧ ixbtParse [] = ([], [LogEvent.info 0])
    ∧ riaParse [] = ([], [LogEvent.info 0])
    ∧ kommersantRun (Except.ok []) = Except.ok []
    ∧ rbcRun (Except.ok []) = Except.ok []
    ∧ ixbtRun (Except.ok []) = Except.ok []
    ∧ riaRun (Except.ok []) = Except.ok [] :=
  ⟨rfl, rfl, rfl, rfl, rfl, rfl, rfl, rfl⟩

/-- Decomposition of an extraction loop around one item that raises: the
loop's records are the surrounding items' records and the raised error is
logged in place. -/
theorem itemsLoop_around_error {α : Type} (f : α → ItemResult) (pre post : List α)
    (bad : α) (e : String) (hbad : f bad = ItemResult.errored e) :
    itemsLoop f (pre ++ bad :: post)
      = ((itemsLoop f pre).1 ++ (itemsLoop f post).1,
         (itemsLoop f pre).2 ++ LogEvent.itemError e :: (itemsLoop f post).2) := by
  rw [show pre ++ bad :: post = pre ++ [bad] ++ post by simp, itemsLoop_append,
    itemsLoop_append]
  simp [itemsLoop, hbad]

/-- C2: in every adapter's extraction loop (each of the four `parse`
methods instantiates `itemsLoop`), an item whose processing raises an
exception is logged and skipped and extraction continues: the returned
records are exactly those of the surrounding items, in document order, and
the error appears in the log; instantiated for `KommersantParser.parse`
itself in the last two conjuncts. -/
theorem c2_item_fault_logged_and_skipped {α : Type} (f : α → ItemResult)
    (pre post : List α) (bad : α) (e : String)
    (hbad : f bad = ItemResult.errored e)
    (preK postK : List Item) (badK : Item) (eK : String)
    (hbadK : kommersantItem badK = ItemResult.errored eK) :
    (itemsLoop f (pre ++ bad :: post)).1
        = (itemsLoop f pre).1 ++ (itemsLoop f post).1
    ∧ LogEvent.itemError e ∈ (itemsLoop f (pre ++ bad :: post)).2
    ∧ (kommersantParse (preK ++ badK :: postK)).1
        = (kommersantParse preK).1 ++ (kommersantParse postK).1
    ∧ LogEvent.itemError eK ∈ (kommersantParse (preK ++ badK :: postK)).2 := by
  have h1 := itemsLoop_around_error f pre post bad e hbad
  have h2 := itemsLoop_around_error kommersantItem preK postK badK eK hbadK
  refine ⟨by rw [h1], by rw [h1]; simp, ?_, ?_⟩
  · show (itemsLoop kommersantItem (preK ++ badK :: postK)).1
        = (itemsLoop kommersantItem preK).1 ++ (itemsLoop kommersantItem postK).1
    rw [h2]
  · show LogEvent.itemError eK
        ∈ (itemsLoop kommersantItem (preK ++ badK :: postK)).2
          ++ [LogEvent.info (itemsLoop kommersantItem (preK ++ badK :: postK)).1.length]
    rw [h2]
    simp

/-- C2 witness: a concrete RBC document whose middle item passes the
truthiness guard but carries a relative href, so pydantic URL validation
raises; the records of the two surrounding items survive in order. -/
theorem c2_witness :
    (itemsLoop rbcItem
        ([(⟨some "A", some "09:00", some "https://www.rbc.ru/a"⟩ : Item)]
          ++ (⟨some "T", some "12:00", some "/rel/path"⟩ : Item)
            :: [(⟨some "B", some "09:30", some "https://www.rbc.ru/b"⟩ : Item)])).1
      = (itemsLoop rbcItem [(⟨some "A", some "09:00", some "https://www.rbc.ru/a"⟩ : Item)]).1
        ++ (itemsLoop rbcItem [(⟨some "B", some "09:30", some "https://www.rbc.ru/b"⟩ : Item)]).1 :=
  (c2_item_fault_logged_and_skipped rbcItem
    [⟨some "A", some "09:00", some "https://www.rbc.ru/a"⟩]
    [⟨some "B", some "09:30", some "https://www.rbc.ru/b"⟩]
    ⟨some "T", some "12:00", some "/rel/path"⟩ "url: invalid or relative URL" rfl
    [] [] ⟨none, none, some "/x"⟩ "title: none is not an allowed value" rfl).1

/-- C3 counterexample: the Kommersant parser, on an item whose title span
text is whitespace only (and whose link resolves to a valid absolute URL),
emits a record whose stripped title is empty — refuting the claim that no
record with an empty title is ever emitted. -/
theorem c3_empty_title_emitted :
    (kommersantParse [⟨some "   ", some "10:15", some "/doc/42"⟩]).1
      = [⟨"Kommersant", "", some "10:15", "https://www.kommersant.ru/doc/42"⟩] := by
  rfl

/-- C3 amended: every emitted record has its adapter's non-empty source
name and a syntactically valid absolute URL (pydantic validation on
construction guarantees both, and every parser constructs records only
through it); records of the RBC, IXBT and RIA parsers additionally have a
non-empty stripped title because of their truthiness guard, but the
Kommersant parser, which has no guard, can emit a record whose title is
empty after stripping. -/
theorem c3_amended_record_invariants (docK docR docI : List Item)
    (docA : List RIAItem) :
    (∀ a ∈ (kommersantParse docK).1,
        a.source = "Kommersant" ∧ isHttpUrl a.url = true)
    ∧ (∀ a ∈ (rbcParse docR).1,
        a.source = "RBC" ∧ isHttpUrl a.url = true ∧ a.title ≠ "")
    ∧ (∀ a ∈ (ixbtParse docI).1,
        a.source = "IXBT" ∧ isHttpUrl a.url = true ∧ a.title ≠ "")
    ∧ (∀ a ∈ (riaParse docA).1,
        a.source = "RIA" ∧ isHttpUrl a.url = true ∧ a.title ≠ "") := by
  refine ⟨?_, ?_, ?_, ?_⟩ <;> intro a ha
  · obtain ⟨it, _, hf⟩ := mem_itemsLoop_records ha
    exact kommersantItem_emitted hf
  · obtain ⟨it, _, hf⟩ := mem_itemsLoop_records ha
    exact rbcItem_emitted hf
  · obtain ⟨it, _, hf⟩ := mem_itemsLoop_records ha
    exact ixbtItem_emitted hf
  · obtain ⟨it, _, hf⟩ := mem_itemsLoop_records ha
    exact riaItem_emitted hf

/-- C3 amended witness: the record the RBC parser extracts from a concrete
one-item document satisfies the amended invariants. -/
theorem c3_amended_witness :
    (⟨"RBC", "Tech", some "12:00", "https://www.rbc.ru/x"⟩ : Article).source = "RBC"
    ∧ isHttpUrl (⟨"RBC", "Tech", some "12:00", "https://www.rbc.ru/x"⟩ : Article).url = true
    ∧ (⟨"RBC", "Tech", some "12:00", "https://www.rbc.ru/x"⟩ : Article).title ≠ "" :=
  (c3_amended_record_invariants [] [⟨some "Tech", some "12:00", some "https://www.rbc.ru/x"⟩]
      [] []).2.1
    ⟨"RBC", "Tech", some "12:00", "https://www.rbc.ru/x"⟩ (by decide)

/-- C4 counterexample: the claim says a document with N items of which K
are well-formed yields K records and a report of N-K drops.  On an RBC
document with one malformed item (its title element is absent), extraction
returns zero records and its complete output log is the single info line
with the record count 0: the N-K = 1 dropped candidate is skipped silently
by the truthiness guard, with no drop count or log entry of any kind. -/
theorem c4_guard_drop_unreported :
    rbcParse [⟨none, some "12:30", some "https://www.rbc.ru/g"⟩]
      = ([], [LogEvent.info 0]) := by
  rfl

/-- C4 amended: every adapter's extraction returns exactly the validated
candidates, in their original document order, but drops are not reported
as an N-K count: an item whose record construction raises is logged with
an individual error line, an item rejected by the truthiness guard leaves
no trace at all, and the only count in the log is K, the number of
records extracted. -/
theorem c4_extraction_output_and_drop_reporting {α : Type}
    (f : α → ItemResult) (doc : List α) :
    parseLoop f doc
      = (doc.filterMap (fun it => emittedPart (f it)),
         doc.filterMap (fun it => erroredPart (f it))
           ++ [LogEvent.info (doc.filterMap (fun it => emittedPart (f it))).length]) := by
  simp [parseLoop, itemsLoop_eq_filterMap]

/-- C5 counterexample: the claim says a candidate whose timestamp element
is absent is still emitted, with timestamp None.  The RBC parser discards
such a candidate: on a one-item document with a present title and a valid
absolute href but no timestamp element, extraction returns no records. -/
theorem c5_absent_timestamp_discarded :
    rbcParse [⟨some "No time", none, some "https://www.rbc.ru/nt"⟩]
      = ([], [LogEvent.info 0]) := by
  rfl

/-- C5 amended: only the Kommersant parser treats an absent timestamp
element as valid — it emits the record with timestamp None (preserved as
such); the RBC, IXBT and RIA parsers discard any candidate whose timestamp
element is absent, because their truthiness guard requires a non-empty
timestamp. -/
theorem c5_amended_absent_timestamp (t h : String) (itR itI : Item)
    (itA : RIAItem)
    (hurl : isHttpUrl ("https://www.kommersant.ru" ++ h) = true)
    (hR : itR.timestampText = none) (hI : itI.timestampText = none)
    (hA : itA.timestampText = none) :
    kommersantItem ⟨some t, none, some h⟩
      = ItemResult.emitted
          ⟨"Kommersant", pyStrip t, none, "https://www.kommersant.ru" ++ h⟩
    ∧ rbcItem itR = ItemResult.skipped
    ∧ ixbtItem itI = ItemResult.skipped
    ∧ riaItem itA = ItemResult.skipped := by
  refine ⟨?_, ?_, ?_, ?_⟩
  · simp [kommersantItem, mkArticle, hurl]
  · simp [rbcItem, hR, truthy]
  · simp [ixbtItem, hI, truthy]
  · simp [riaItem, hA, truthy]

/-- C5 amended witness: a concrete Kommersant item with no timestamp
element is emitted with timestamp None, while concrete RBC, IXBT and RIA
items with no timestamp element are skipped. -/
theorem c5_amended_witness :
    kommersantItem ⟨some " Kommersant news ", none, some "/doc/7"⟩
      = ItemResult.emitted
          ⟨"Kommersant", "Kommersant news", none, "https://www.kommersant.ru/doc/7"⟩
    ∧ rbcItem ⟨some "R", none, some "https://www.rbc.ru/r"⟩ = ItemResult.skipped
    ∧ ixbtItem ⟨some "I", none, some "n/1.htm"⟩ = ItemResult.skipped
    ∧ riaItem ⟨some ("A", "https://ria.ru/a"), none⟩ = ItemResult.skipped :=
  c5_amended_absent_timestamp " Kommersant news " "/doc/7"
    ⟨some "R", none, some "https://www.rbc.ru/r"⟩
    ⟨some "I", none, some "n/1.htm"⟩
    ⟨some ("A", "https://ria.ru/a"), none⟩
    (by decide) rfl rfl rfl

/-- C8: when all four fetches succeed, the gathered run returns one record
list per adapter in registration order (Kommersant, RBC, IXBT, RIA),
whatever the real-world completion times of the four units of work, and
the ETL flattening step is the deterministic concatenation of the four
lists in that same order (each record serialized in place), never an
interleaving by arrival time. -/
theorem c8_registration_order_and_flatten (t1 t2 t3 t4 s1 s2 s3 s4 : Nat)
    (net : NetworkInput) (dk dr di : List Item) (da : List RIAItem)
    (hk : net.kommersantDoc = Except.ok dk) (hr : net.rbcDoc = Except.ok dr)
    (hi : net.ixbtDoc = Except.ok di) (ha : net.riaDoc = Except.ok da) :
    mainGather t1 t2 t3 t4 net
      = Except.ok
          [(kommersantParse dk).1, (rbcParse dr).1, (ixbtParse di).1, (riaParse da).1]
    ∧ mainGather t1 t2 t3 t4 net = mainGather s1 s2 s3 s4 net
    ∧ etlArticlesList
        [(kommersantParse dk).1, (rbcParse dr).1, (ixbtParse di).1, (riaParse da).1]
      = (kommersantParse dk).1.map (fun a => Json.obj (articleDump a))
        ++ (rbcParse dr).1.map (fun a => Json.obj (articleDump a))
        ++ (ixbtParse di).1.map (fun a => Json.obj (articleDump a))
        ++ (riaParse da).1.map (fun a => Json.obj (articleDump a)) := by
  refine ⟨?_, ?_, ?_⟩
  · rw [mainGather, hk, hr, hi, ha]
    rfl
  · rw [mainGather, mainGather, hk, hr, hi, ha]
    rfl
  · simp [etlArticlesList, List.foldl, List.append_assoc]

/-- C8 witness: a run with concrete completion times and concrete
documents (RBC and RIA matching zero items) returns the four record lists
in registration order. -/
theorem c8_witness :
    mainGather 9 5 7 6
        ⟨Except.ok [⟨some "K1", some "08:00", some "/k1"⟩],
         Except.ok [],
         Except.ok [⟨some "I1", some "08:30", some "n/5.htm"⟩],
         Except.ok []⟩
      = Except.ok
          [[⟨"Kommersant", "K1", some "08:00", "https://www.kommersant.ru/k1"⟩],
           [],
           [⟨"IXBT", "I1", some "08:30", "https://www.ixbt.com/n/5.htm"⟩],
           []] :=
  Eq.trans
    ((c8_registration_order_and_flatten 9 5 7 6 1 2 3 4
        ⟨Except.ok [⟨some "K1", some "08:00", some "/k1"⟩],
         Except.ok [],
         Except.ok [⟨some "I1", some "08:30", some "n/5.htm"⟩],
         Except.ok []⟩
        [⟨some "K1", some "08:00", some "/k1"⟩] []
        [⟨some "I1", some "08:30", some "n/5.htm"⟩] []
        rfl rfl rfl rfl).1)
    (by rfl)

/-- C9: the serialized output is a JSON array with one object per record;
every dumped object carries exactly the keys source, title, timestamp,
url in that order, and a record whose timestamp is None is dumped with an
explicit null value under the timestamp key — the key is present, mapped
to null, not omitted. -/
theorem c9_serialized_fields (articles : List Article) (a : Article)
    (hts : a.timestamp = none) :
    saveToJson (articles.map (fun x => Json.obj (articleDump x)))
      = Json.arr (articles.map (fun x => Json.obj (articleDump x)))
    ∧ (∀ x : Article,
        (articleDump x).map Prod.fst = ["source", "title", "timestamp", "url"])
    ∧ ("timestamp", Json.null) ∈ articleDump a
    ∧ getField (articleDump a) "timestamp" = some Json.null := by
  refine ⟨rfl, fun x => rfl, ?_, ?_⟩
  · simp [articleDump, hts]
  · simp [articleDump, getField, hts]

/-- C9 witness: a concrete record with timestamp None is serialized with
an explicit null under the timestamp key. -/
theorem c9_witness :
    getField (articleDump ⟨"RIA", "T9", none, "https://ria.ru/t9"⟩) "timestamp"
      = some Json.null :=
  (c9_serialized_fields [] ⟨"RIA", "T9", none, "https://ria.ru/t9"⟩ rfl).2.2.2

/-- C10: for every Article whose fields satisfy the model's validation
(the URL passes the absolute-URL check; source and title are strings and
timestamp an optional string by construction), dumping it with the schema
and loading the resulting dict reconstructs, via the post-load hook, an
Article equal to the original. -/
theorem c10_dump_load_roundtrip (a : Article) (h : isHttpUrl a.url = true) :
    articleLoad (articleDump a) = Except.ok a := by
  obtain ⟨s, t, ts, u⟩ := a
  simp only at h
  cases ts <;>
    simp [articleLoad, articleDump, loadField, getField, loadStr, loadOptStr,
      loadUrl, mkArticle, h]

/-- C10 witness: the dump/load round trip on a concrete valid Article. -/
theorem c10_witness :
    articleLoad (articleDump ⟨"RBC", "Round trip", some "13:37", "https://www.rbc.ru/rt"⟩)
      = Except.ok ⟨"RBC", "Round trip", some "13:37", "https://www.rbc.ru/rt"⟩ :=
  c10_dump_load_roundtrip ⟨"RBC", "Round trip", some "13:37", "https://www.rbc.ru/rt"⟩
    (by decide)

end ETL
